import Mathlib

/-!
Verification of the decky-bitwarden backend (a Decky plugin driving the
Bitwarden CLI as a subprocess) against its natural-language specification.

The development shallowly embeds the two Python modules:

* `py_modules/bitwarden_cli.py` — binary resolution (`get_bw_path`) and the
  low-level command runner (`run_bw`), modelled in namespace `BwCli`;
* `py_modules/bitwarden_backend.py` — the `BitwardenCLI` class (status,
  login, unlock, lock, logout, list_items, get_item, get_totp, clipboard),
  modelled in namespace `BwBackend`.

Subprocess execution is modelled by a `ProcOutcome` oracle value: either a
completed process (return code, stdout, stderr), a timeout
(`subprocess.TimeoutExpired`), a `FileNotFoundError`, or any other raised
exception.  JSON parsing (`json.loads`) is modelled by an abstract partial
function `parse : String → Option J`; `none` corresponds to
`json.JSONDecodeError`.  Python string operations used by the code
(`in`, `.lower()`, `.strip()`) are given explicit executable models below.
-/

/-- Model of Python list/string containment test for char lists:
`startsWith needle hay` is true when `needle` is an initial segment of `hay`. -/
def charsStartWith : List Char → List Char → Bool
  | [], _ => true
  | _ :: _, [] => false
  | n :: ns, h :: hs => n = h && charsStartWith ns hs

/-- `charsContain needle hay`: `needle` occurs contiguously inside `hay`. -/
def charsContain : List Char → List Char → Bool
  | needle, [] => charsStartWith needle []
  | needle, h :: t => charsStartWith needle (h :: t) || charsContain needle t

/-- Model of Python's `needle in hay` substring test. -/
def strContains (hay needle : String) : Bool :=
  charsContain needle.data hay.data

/-- Model of Python's `str.lower()` (ASCII case folding suffices here). -/
def pyLower (s : String) : String := ⟨s.data.map Char.toLower⟩

/-- Model of Python's `str.strip()`: drop whitespace at both ends. -/
def pyStrip (s : String) : String :=
  ⟨((s.data.dropWhile Char.isWhitespace).reverse.dropWhile Char.isWhitespace).reverse⟩

/-- Result of one `subprocess.run` call that actually completed. -/
structure CompletedProc where
  returncode : Int
  stdout : String
  stderr : String
deriving DecidableEq

/-- Outcome of attempting one subprocess invocation. -/
inductive ProcOutcome where
  | completed (r : CompletedProc)
  | timedOut
  | fileNotFound
  | raised (msg : String)
deriving DecidableEq

/-- A process environment: total map from variable names to optional values. -/
def Env : Type := String → Option String

/-- `os.environ`-style destructive update of one variable. -/
def Env.update (e : Env) (k v : String) : Env :=
  fun s => if s = k then some v else e s

/-- `dict.update` with an association list (later entries win). -/
def Env.updateMany (e : Env) (kvs : List (String × String)) : Env :=
  kvs.foldl (fun a kv => a.update kv.1 kv.2) e

/-- The empty base environment, used to instantiate witnesses. -/
def emptyEnv : Env := fun _ => none

/-- One subprocess invocation as issued by the code: argument vector,
environment, timeout in seconds, and optional text fed on standard input. -/
structure Invocation where
  argv : List String
  env : Env
  timeoutSec : Nat
  stdinData : Option String

namespace BwCli

/-- The filesystem facts `get_bw_path` probes (`os.path.isfile`, `os.access`). -/
structure Fs where
  isFile : String → Bool
  canExec : String → Bool

/-- Module-level resolver state: `_plugin_dir` and `_bw_path_cache`. -/
structure ResolverCtx where
  plugin_dir : Option String
  bw_path_cache : Option String
deriving DecidableEq

/-- `get_bw_path` from `bitwarden_cli.py`: return the cached path when
present; otherwise probe `<plugin>/backend/bin/bw` then `<plugin>/bin/bw`,
requiring the candidate to exist and be executable, caching on success;
yield `none` when no candidate qualifies. -/
def get_bw_path (fs : Fs) (ctx : ResolverCtx) : Option String × ResolverCtx :=
  match ctx.bw_path_cache with
  | some p => (some p, ctx)
  | none =>
    match ctx.plugin_dir with
    | none => (none, ctx)
    | some d =>
      let p1 := d ++ "/backend/bin/bw"
      if fs.isFile p1 && fs.canExec p1 then
        (some p1, { ctx with bw_path_cache := some p1 })
      else
        let p2 := d ++ "/bin/bw"
        if fs.isFile p2 && fs.canExec p2 then
          (some p2, { ctx with bw_path_cache := some p2 })
        else (none, ctx)

/-- `clear_path_cache` from `bitwarden_cli.py`. -/
def clear_path_cache (ctx : ResolverCtx) : ResolverCtx :=
  { ctx with bw_path_cache := none }

/-- `init_plugin_dir` from `bitwarden_cli.py`. -/
def init_plugin_dir (d : String) (_ctx : ResolverCtx) : ResolverCtx :=
  { plugin_dir := some d, bw_path_cache := none }

/-- The diagnostic message `run_bw` returns when the binary is missing. -/
def bwMissingMessage : String :=
  "Bitwarden CLI (bw) not found. Run ./scripts/fetch_bw.sh to download the bundled binary (backend/bin/bw)."

/-- The `data` payload of a `run_bw` result: either the missing-binary
message dict or the raw output dict. -/
inductive RunBwData where
  | message (m : String)
  | output (stdout stderr : String) (returncode : Int)
deriving DecidableEq

/-- The result dict returned by `run_bw`. -/
structure RunBwResp where
  ok : Bool
  error : Option String
  data : RunBwData
deriving DecidableEq

/-- `run_bw` from `bitwarden_cli.py`: resolve the binary (short-circuiting
with `BW_BINARY_MISSING` when absent), otherwise run it and normalise the
outcome.  The second component records the invocation actually issued
(`none` when no process was launched). -/
def run_bw (fs : Fs) (ctx : ResolverCtx) (args : List String) (timeout : Nat)
    (envAdd : List (String × String)) (base : Env) (outcome : ProcOutcome) :
    RunBwResp × Option Invocation :=
  match (get_bw_path fs ctx).1 with
  | none =>
    (⟨false, some "BW_BINARY_MISSING", .message bwMissingMessage⟩, none)
  | some p =>
    let runEnv := base.updateMany envAdd
    let inv : Invocation := ⟨p :: args, runEnv, timeout, none⟩
    match outcome with
    | .completed r =>
      if r.returncode = 0 then
        (⟨true, none, .output r.stdout r.stderr r.returncode⟩, some inv)
      else
        (⟨false, some "BW_COMMAND_FAILED", .output r.stdout r.stderr r.returncode⟩, some inv)
    | .timedOut =>
      (⟨false, some "BW_COMMAND_FAILED", .output "" "Command timed out" (-1)⟩, some inv)
    | .fileNotFound =>
      (⟨false, some "BW_COMMAND_FAILED", .output "" "FileNotFoundError" (-1)⟩, some inv)
    | .raised msg =>
      (⟨false, some "BW_COMMAND_FAILED", .output "" msg (-1)⟩, some inv)

end BwCli

namespace BwBackend

/-- `BitwardenCLI.FLATPAK_APP`. -/
def FLATPAK_APP : String := "com.bitwarden.desktop"

/-- `BitwardenCLI.TIMEOUT` (seconds). -/
def TIMEOUT : Nat := 30

/-- The `_session_key` slot of a `BitwardenCLI` instance. -/
abbrev SessionSt := Option String

/-- The success payload dicts built by `bitwarden_backend.py`, one
constructor per literal dict in the source.  `J` is the type of parsed
JSON values. -/
inductive RespData (J : Type) where
  | version (v : String)
  | installed
  | jsonData (j : J)
  | loggedIn (already : Bool)
  | unlockedData (sessionKey : Option String) (already : Bool)
  | lockedData
  | loggedOut (already : Bool)
  | totp (code : String)
  | copied (method : String)
deriving DecidableEq

/-- `BitwardenCLI._make_response`: the uniform `{ok, data, error}` dict. -/
structure Resp (J : Type) where
  ok : Bool
  data : Option (RespData J)
  error : Option String
deriving DecidableEq

/-- `_make_response` helper. -/
def make_response {J : Type} (ok : Bool) (data : Option (RespData J))
    (error : Option String) : Resp J := ⟨ok, data, error⟩

/-- Lower-cased `stderr + stdout` concatenation used by the classifiers. -/
def combined (r : CompletedProc) : String := pyLower r.stderr ++ pyLower r.stdout

/-- `BitwardenCLI.check_flatpak` classification of the `flatpak --version`
outcome. -/
def check_flatpak {J : Type} (o : ProcOutcome) : Resp J :=
  match o with
  | .completed r =>
    if r.returncode = 0 then
      make_response true (some (.version (pyStrip r.stdout))) none
    else make_response false none (some "FLATPAK_MISSING")
  | .fileNotFound => make_response false none (some "FLATPAK_MISSING")
  | .timedOut => make_response false none (some "COMMAND_FAILED")
  | .raised _ => make_response false none (some "UNKNOWN_ERROR")

/-- `BitwardenCLI.check_bitwarden` classification of the
`flatpak info com.bitwarden.desktop` outcome. -/
def check_bitwarden {J : Type} (o : ProcOutcome) : Resp J :=
  match o with
  | .completed r =>
    if r.returncode = 0 then make_response true (some .installed) none
    else make_response false none (some "BITWARDEN_MISSING")
  | .fileNotFound => make_response false none (some "FLATPAK_MISSING")
  | .timedOut => make_response false none (some "COMMAND_FAILED")
  | .raised _ => make_response false none (some "UNKNOWN_ERROR")

/-- `BitwardenCLI.status`: nonzero exit is `COMMAND_FAILED`; on exit 0 the
stdout is parsed as JSON (`parse`), `JSONDecodeError` giving
`COMMAND_FAILED`.  The session slot is never written. -/
def status {J : Type} (parse : String → Option J) (st : SessionSt)
    (o : ProcOutcome) : SessionSt × Resp J :=
  match o with
  | .completed r =>
    if r.returncode ≠ 0 then (st, make_response false none (some "COMMAND_FAILED"))
    else
      match parse r.stdout with
      | some j => (st, make_response true (some (.jsonData j)) none)
      | none => (st, make_response false none (some "COMMAND_FAILED"))
  | .timedOut => (st, make_response false none (some "COMMAND_FAILED"))
  | .fileNotFound => (st, make_response false none (some "UNKNOWN_ERROR"))
  | .raised _ => (st, make_response false none (some "UNKNOWN_ERROR"))

/-- `BitwardenCLI.login` result classification: exit 0 is success with
`{logged_in: True}`; otherwise the lower-cased `stderr + stdout` is matched
for "invalid"/"incorrect" (`INVALID_CREDENTIALS`), then
"already logged in" (idempotent success), else `COMMAND_FAILED`. -/
def login {J : Type} (st : SessionSt) (o : ProcOutcome) : SessionSt × Resp J :=
  match o with
  | .completed r =>
    if r.returncode = 0 then (st, make_response true (some (.loggedIn false)) none)
    else
      let comb := combined r
      if strContains comb "invalid" || strContains comb "incorrect" then
        (st, make_response false none (some "INVALID_CREDENTIALS"))
      else if strContains comb "already logged in" then
        (st, make_response true (some (.loggedIn true)) none)
      else (st, make_response false none (some "COMMAND_FAILED"))
  | .timedOut => (st, make_response false none (some "COMMAND_FAILED"))
  | .fileNotFound => (st, make_response false none (some "UNKNOWN_ERROR"))
  | .raised _ => (st, make_response false none (some "UNKNOWN_ERROR"))

/-- `BitwardenCLI.unlock` result classification: on exit 0 the stripped
stdout, when non-empty, becomes the stored session key and is returned in
the payload; failures are matched for invalid credentials, "not logged in",
and "already unlocked". -/
def unlock {J : Type} (st : SessionSt) (o : ProcOutcome) : SessionSt × Resp J :=
  match o with
  | .completed r =>
    if r.returncode = 0 then
      let sessionKey := pyStrip r.stdout
      if sessionKey ≠ "" then
        (some sessionKey,
          make_response true (some (.unlockedData (some sessionKey) false)) none)
      else (st, make_response true (some (.unlockedData none false)) none)
    else
      let comb := combined r
      if strContains comb "invalid" || strContains comb "incorrect" then
        (st, make_response false none (some "INVALID_CREDENTIALS"))
      else if strContains comb "not logged in" then
        (st, make_response false none (some "NOT_AUTHENTICATED"))
      else if strContains comb "already unlocked" then
        (st, make_response true (some (.unlockedData none true)) none)
      else (st, make_response false none (some "COMMAND_FAILED"))
  | .timedOut => (st, make_response false none (some "COMMAND_FAILED"))
  | .fileNotFound => (st, make_response false none (some "UNKNOWN_ERROR"))
  | .raised _ => (st, make_response false none (some "UNKNOWN_ERROR"))

/-- `BitwardenCLI.lock`: exit 0 clears the session slot and reports
`{locked: True}`; otherwise `COMMAND_FAILED`. -/
def lock {J : Type} (st : SessionSt) (o : ProcOutcome) : SessionSt × Resp J :=
  match o with
  | .completed r =>
    if r.returncode = 0 then (none, make_response true (some .lockedData) none)
    else (st, make_response false none (some "COMMAND_FAILED"))
  | .timedOut => (st, make_response false none (some "COMMAND_FAILED"))
  | .fileNotFound => (st, make_response false none (some "UNKNOWN_ERROR"))
  | .raised _ => (st, make_response false none (some "UNKNOWN_ERROR"))

/-- `BitwardenCLI.logout`: exit 0 clears the session slot; on failure, a
lower-cased stderr containing "not logged in" is reported as idempotent
success (without touching the session slot); else `COMMAND_FAILED`. -/
def logout {J : Type} (st : SessionSt) (o : ProcOutcome) : SessionSt × Resp J :=
  match o with
  | .completed r =>
    if r.returncode = 0 then (none, make_response true (some (.loggedOut false)) none)
    else if strContains (pyLower r.stderr) "not logged in" then
      (st, make_response true (some (.loggedOut true)) none)
    else (st, make_response false none (some "COMMAND_FAILED"))
  | .timedOut => (st, make_response false none (some "COMMAND_FAILED"))
  | .fileNotFound => (st, make_response false none (some "UNKNOWN_ERROR"))
  | .raised _ => (st, make_response false none (some "UNKNOWN_ERROR"))

/-- `BitwardenCLI.list_items`: failures are matched on lower-cased stderr
for "locked" (`LOCKED`) and "not logged in" (`NOT_AUTHENTICATED`); success
parses stdout as JSON. -/
def list_items {J : Type} (parse : String → Option J) (st : SessionSt)
    (o : ProcOutcome) : SessionSt × Resp J :=
  match o with
  | .completed r =>
    if r.returncode ≠ 0 then
      let se := pyLower r.stderr
      if strContains se "locked" then (st, make_response false none (some "LOCKED"))
      else if strContains se "not logged in" then
        (st, make_response false none (some "NOT_AUTHENTICATED"))
      else (st, make_response false none (some "COMMAND_FAILED"))
    else
      match parse r.stdout with
      | some j => (st, make_response true (some (.jsonData j)) none)
      | none => (st, make_response false none (some "COMMAND_FAILED"))
  | .timedOut => (st, make_response false none (some "COMMAND_FAILED"))
  | .fileNotFound => (st, make_response false none (some "UNKNOWN_ERROR"))
  | .raised _ => (st, make_response false none (some "UNKNOWN_ERROR"))

/-- `BitwardenCLI.get_item`: like `list_items`, with an extra "not found"
stderr pattern that also maps to `COMMAND_FAILED`. -/
def get_item {J : Type} (parse : String → Option J) (st : SessionSt)
    (o : ProcOutcome) : SessionSt × Resp J :=
  match o with
  | .completed r =>
    if r.returncode ≠ 0 then
      let se := pyLower r.stderr
      if strContains se "locked" then (st, make_response false none (some "LOCKED"))
      else if strContains se "not logged in" then
        (st, make_response false none (some "NOT_AUTHENTICATED"))
      else if strContains se "not found" then
        (st, make_response false none (some "COMMAND_FAILED"))
      else (st, make_response false none (some "COMMAND_FAILED"))
    else
      match parse r.stdout with
      | some j => (st, make_response true (some (.jsonData j)) none)
      | none => (st, make_response false none (some "COMMAND_FAILED"))
  | .timedOut => (st, make_response false none (some "COMMAND_FAILED"))
  | .fileNotFound => (st, make_response false none (some "UNKNOWN_ERROR"))
  | .raised _ => (st, make_response false none (some "UNKNOWN_ERROR"))

/-- `BitwardenCLI.get_totp`: failures are matched on the lower-cased
`stderr + stdout` for "locked", "not logged in", "no totp"/"not found";
success returns the stripped stdout as the code. -/
def get_totp {J : Type} (st : SessionSt) (o : ProcOutcome) : SessionSt × Resp J :=
  match o with
  | .completed r =>
    if r.returncode ≠ 0 then
      let comb := combined r
      if strContains comb "locked" then (st, make_response false none (some "LOCKED"))
      else if strContains comb "not logged in" then
        (st, make_response false none (some "NOT_AUTHENTICATED"))
      else if strContains comb "no totp" || strContains comb "not found" then
        (st, make_response false none (some "COMMAND_FAILED"))
      else (st, make_response false none (some "COMMAND_FAILED"))
    else (st, make_response true (some (.totp (pyStrip r.stdout))) none)
  | .timedOut => (st, make_response false none (some "COMMAND_FAILED"))
  | .fileNotFound => (st, make_response false none (some "UNKNOWN_ERROR"))
  | .raised _ => (st, make_response false none (some "UNKNOWN_ERROR"))

/-- The argument vector built by `BitwardenCLI._run_bw_command`:
`["flatpak", "run", "--command=bw", FLATPAK_APP] + args`. -/
def bw_cmd (args : List String) : List String :=
  ["flatpak", "run", "--command=bw", FLATPAK_APP] ++ args

/-- The environment built by `BitwardenCLI._run_bw_command`: a copy of the
process environment, with `BW_SESSION` set when `_session_key` is truthy
(a non-`None`, non-empty string). -/
def bw_env (base : Env) (st : SessionSt) : Env :=
  match st with
  | some k => if k ≠ "" then base.update "BW_SESSION" k else base
  | none => base

/-- The subprocess invocation issued by `BitwardenCLI._run_bw_command`. -/
def run_bw_command_invocation (base : Env) (st : SessionSt)
    (args : List String) : Invocation :=
  ⟨bw_cmd args, bw_env base st, TIMEOUT, none⟩

/-- Invocation issued by `BitwardenCLI.status`. -/
def status_invocation (base : Env) (st : SessionSt) : Invocation :=
  run_bw_command_invocation base st ["status", "--raw"]

/-- Invocation issued by `BitwardenCLI.lock`. -/
def lock_invocation (base : Env) (st : SessionSt) : Invocation :=
  run_bw_command_invocation base st ["lock"]

/-- Invocation issued by `BitwardenCLI.logout`. -/
def logout_invocation (base : Env) (st : SessionSt) : Invocation :=
  run_bw_command_invocation base st ["logout"]

/-- Invocation issued by `BitwardenCLI.list_items`. -/
def list_items_invocation (base : Env) (st : SessionSt) : Invocation :=
  run_bw_command_invocation base st ["list", "items", "--raw"]

/-- Invocation issued by `BitwardenCLI.get_item`. -/
def get_item_invocation (base : Env) (st : SessionSt) (item_id : String) :
    Invocation :=
  run_bw_command_invocation base st ["get", "item", item_id, "--raw"]

/-- Invocation issued by `BitwardenCLI.get_totp`. -/
def get_totp_invocation (base : Env) (st : SessionSt) (item_id : String) :
    Invocation :=
  run_bw_command_invocation base st ["get", "totp", item_id, "--raw"]

/-- Invocation issued by `BitwardenCLI.login`: the email is a command-line
argument, the password enters only through the `BW_PASSWORD` environment
variable (`--passwordenv BW_PASSWORD`). -/
def login_invocation (base : Env) (email password : String) : Invocation :=
  ⟨["flatpak", "run", "--command=bw", FLATPAK_APP, "login", email,
      "--passwordenv", "BW_PASSWORD", "--raw"],
    base.update "BW_PASSWORD" password, TIMEOUT, none⟩

/-- Invocation issued by `BitwardenCLI.unlock`: the password enters only
through the `BW_PASSWORD` environment variable. -/
def unlock_invocation (base : Env) (password : String) : Invocation :=
  ⟨["flatpak", "run", "--command=bw", FLATPAK_APP, "unlock",
      "--passwordenv", "BW_PASSWORD", "--raw"],
    base.update "BW_PASSWORD" password, TIMEOUT, none⟩

/-- The ambient system facts the clipboard chain consults: `shutil.which`
and the outcome of executing a given invocation. -/
structure ClipSys where
  which : String → Option String
  exec : Invocation → ProcOutcome

/-- Invocation issued by `_try_wl_copy`: the text is passed as a
command-line argument, with a 5-second timeout. -/
def wl_copy_invocation (base : Env) (text : String) : Invocation :=
  ⟨["wl-copy", text], base, 5, none⟩

/-- Invocation issued by `_try_xclip`: the text is fed on standard input. -/
def xclip_invocation (base : Env) (text : String) : Invocation :=
  ⟨["xclip", "-selection", "clipboard"], base, 5, some text⟩

/-- Invocation issued by `_try_xsel`: the text is fed on standard input. -/
def xsel_invocation (base : Env) (text : String) : Invocation :=
  ⟨["xsel", "--clipboard", "--input"], base, 5, some text⟩

/-- Shared shape of the three `_try_*` helpers: skip (returning `False`)
when the tool is not on the PATH, otherwise run it and report whether it
exited 0; every exception (timeouts included) yields `False`. -/
def try_tool (sys : ClipSys) (name : String) (inv : Invocation) : Bool :=
  match sys.which name with
  | none => false
  | some _ =>
    match sys.exec inv with
    | .completed r => r.returncode = 0
    | _ => false

/-- `BitwardenCLI._try_wl_copy`. -/
def try_wl_copy (sys : ClipSys) (base : Env) (text : String) : Bool :=
  try_tool sys "wl-copy" (wl_copy_invocation base text)

/-- `BitwardenCLI._try_xclip`. -/
def try_xclip (sys : ClipSys) (base : Env) (text : String) : Bool :=
  try_tool sys "xclip" (xclip_invocation base text)

/-- `BitwardenCLI._try_xsel`. -/
def try_xsel (sys : ClipSys) (base : Env) (text : String) : Bool :=
  try_tool sys "xsel" (xsel_invocation base text)

/-- `BitwardenCLI.copy_to_clipboard`: try `wl-copy`, then `xclip`, then
`xsel`; the first success names the method; otherwise `CLIPBOARD_ERROR`. -/
def copy_to_clipboard {J : Type} (sys : ClipSys) (base : Env) (text : String) :
    Resp J :=
  if try_wl_copy sys base text then
    make_response true (some (.copied "wl-copy")) none
  else if try_xclip sys base text then
    make_response true (some (.copied "xclip")) none
  else if try_xsel sys base text then
    make_response true (some (.copied "xsel")) none
  else make_response false none (some "CLIPBOARD_ERROR")

/-- The error strings the backend module actually produces. -/
def backendKinds : List String :=
  ["FLATPAK_MISSING", "BITWARDEN_MISSING", "COMMAND_FAILED", "UNKNOWN_ERROR",
    "INVALID_CREDENTIALS", "NOT_AUTHENTICATED", "LOCKED", "CLIPBOARD_ERROR"]

/-- The eight error kinds enumerated by the specification's taxonomy. -/
def specKinds : List String :=
  ["BW_BINARY_MISSING", "COMMAND_FAILED", "INVALID_CREDENTIALS",
    "NOT_AUTHENTICATED", "LOCKED", "TWO_FACTOR_REQUIRED", "INVALID_2FA_CODE",
    "CLIPBOARD_ERROR"]

end BwBackend

section ResultShapes

/-- Shape of every `check_flatpak` result: a success carries no error, a
failure carries one of the error strings the backend actually emits. -/
theorem check_flatpak_shape {J : Type} (o : ProcOutcome) :
    ((BwBackend.check_flatpak (J := J) o).ok = true ∧
      (BwBackend.check_flatpak (J := J) o).error = none) ∨
    ((BwBackend.check_flatpak (J := J) o).ok = false ∧
      (BwBackend.check_flatpak (J := J) o).error ∈ BwBackend.backendKinds.map some) := by
  cases o <;>
    simp [BwBackend.check_flatpak, BwBackend.make_response, BwBackend.backendKinds] <;>
    split_ifs <;> simp

/-- Shape of every `check_bitwarden` result. -/
theorem check_bitwarden_shape {J : Type} (o : ProcOutcome) :
    ((BwBackend.check_bitwarden (J := J) o).ok = true ∧
      (BwBackend.check_bitwarden (J := J) o).error = none) ∨
    ((BwBackend.check_bitwarden (J := J) o).ok = false ∧
      (BwBackend.check_bitwarden (J := J) o).error ∈ BwBackend.backendKinds.map some) := by
  cases o <;>
    simp [BwBackend.check_bitwarden, BwBackend.make_response, BwBackend.backendKinds] <;>
    split_ifs <;> simp

/-- Shape of every `status` result. -/
theorem status_shape {J : Type} (parse : String → Option J) (st : BwBackend.SessionSt)
    (o : ProcOutcome) :
    ((BwBackend.status parse st o).2.ok = true ∧
      (BwBackend.status parse st o).2.error = none) ∨
    ((BwBackend.status parse st o).2.ok = false ∧
      (BwBackend.status parse st o).2.error ∈ BwBackend.backendKinds.map some) := by
  cases o with
  | completed r =>
    simp only [BwBackend.status, BwBackend.make_response]
    split_ifs with h
    · simp [BwBackend.backendKinds]
    · cases hp : parse r.stdout <;> simp [hp, BwBackend.backendKinds]
  | timedOut => simp [BwBackend.status, BwBackend.make_response, BwBackend.backendKinds]
  | fileNotFound => simp [BwBackend.status, BwBackend.make_response, BwBackend.backendKinds]
  | raised msg => simp [BwBackend.status, BwBackend.make_response, BwBackend.backendKinds]

/-- Shape of every `login` result. -/
theorem login_shape {J : Type} (st : BwBackend.SessionSt) (o : ProcOutcome) :
    ((BwBackend.login (J := J) st o).2.ok = true ∧
      (BwBackend.login (J := J) st o).2.error = none) ∨
    ((BwBackend.login (J := J) st o).2.ok = false ∧
      (BwBackend.login (J := J) st o).2.error ∈ BwBackend.backendKinds.map some) := by
  cases o <;>
    simp [BwBackend.login, BwBackend.make_response, BwBackend.backendKinds] <;>
    split_ifs <;> simp

/-- Shape of every `unlock` result. -/
theorem unlock_shape {J : Type} (st : BwBackend.SessionSt) (o : ProcOutcome) :
    ((BwBackend.unlock (J := J) st o).2.ok = true ∧
      (BwBackend.unlock (J := J) st o).2.error = none) ∨
    ((BwBackend.unlock (J := J) st o).2.ok = false ∧
      (BwBackend.unlock (J := J) st o).2.error ∈ BwBackend.backendKinds.map some) := by
  cases o <;>
    simp [BwBackend.unlock, BwBackend.make_response, BwBackend.backendKinds] <;>
    split_ifs <;> simp

/-- Shape of every `lock` result. -/
theorem lock_shape {J : Type} (st : BwBackend.SessionSt) (o : ProcOutcome) :
    ((BwBackend.lock (J := J) st o).2.ok = true ∧
      (BwBackend.lock (J := J) st o).2.error = none) ∨
    ((BwBackend.lock (J := J) st o).2.ok = false ∧
      (BwBackend.lock (J := J) st o).2.error ∈ BwBackend.backendKinds.map some) := by
  cases o <;>
    simp [BwBackend.lock, BwBackend.make_response, BwBackend.backendKinds] <;>
    split_ifs <;> simp

/-- Shape of every `logout` result. -/
theorem logout_shape {J : Type} (st : BwBackend.SessionSt) (o : ProcOutcome) :
    ((BwBackend.logout (J := J) st o).2.ok = true ∧
      (BwBackend.logout (J := J) st o).2.error = none) ∨
    ((BwBackend.logout (J := J) st o).2.ok = false ∧
      (BwBackend.logout (J := J) st o).2.error ∈ BwBackend.backendKinds.map some) := by
  cases o <;>
    simp [BwBackend.logout, BwBackend.make_response, BwBackend.backendKinds] <;>
    split_ifs <;> simp

/-- Shape of every `list_items` result. -/
theorem list_items_shape {J : Type} (parse : String → Option J)
    (st : BwBackend.SessionSt) (o : ProcOutcome) :
    ((BwBackend.list_items parse st o).2.ok = true ∧
      (BwBackend.list_items parse st o).2.error = none) ∨
    ((BwBackend.list_items parse st o).2.ok = false ∧
      (BwBackend.list_items parse st o).2.error ∈ BwBackend.backendKinds.map some) := by
  cases o with
  | completed r =>
    simp only [BwBackend.list_items, BwBackend.make_response]
    split_ifs with h1 h2 h3
    · simp [BwBackend.backendKinds]
    · simp [BwBackend.backendKinds]
    · simp [BwBackend.backendKinds]
    · cases hp : parse r.stdout <;> simp [hp, BwBackend.backendKinds]
  | timedOut => simp [BwBackend.list_items, BwBackend.make_response, BwBackend.backendKinds]
  | fileNotFound => simp [BwBackend.list_items, BwBackend.make_response, BwBackend.backendKinds]
  | raised msg => simp [BwBackend.list_items, BwBackend.make_response, BwBackend.backendKinds]

/-- Shape of every `get_item` result. -/
theorem get_item_shape {J : Type} (parse : String → Option J)
    (st : BwBackend.SessionSt) (o : ProcOutcome) :
    ((BwBackend.get_item parse st o).2.ok = true ∧
      (BwBackend.get_item parse st o).2.error = none) ∨
    ((BwBackend.get_item parse st o).2.ok = false ∧
      (BwBackend.get_item parse st o).2.error ∈ BwBackend.backendKinds.map some) := by
  cases o with
  | completed r =>
    simp only [BwBackend.get_item, BwBackend.make_response]
    split_ifs with h1 h2 h3 h4
    · simp [BwBackend.backendKinds]
    · simp [BwBackend.backendKinds]
    · simp [BwBackend.backendKinds]
    · simp [BwBackend.backendKinds]
    · cases hp : parse r.stdout <;> simp [hp, BwBackend.backendKinds]
  | timedOut => simp [BwBackend.get_item, BwBackend.make_response, BwBackend.backendKinds]
  | fileNotFound => simp [BwBackend.get_item, BwBackend.make_response, BwBackend.backendKinds]
  | raised msg => simp [BwBackend.get_item, BwBackend.make_response, BwBackend.backendKinds]

/-- Shape of every `get_totp` result. -/
theorem get_totp_shape {J : Type} (st : BwBackend.SessionSt) (o : ProcOutcome) :
    ((BwBackend.get_totp (J := J) st o).2.ok = true ∧
      (BwBackend.get_totp (J := J) st o).2.error = none) ∨
    ((BwBackend.get_totp (J := J) st o).2.ok = false ∧
      (BwBackend.get_totp (J := J) st o).2.error ∈ BwBackend.backendKinds.map some) := by
  cases o <;>
    simp [BwBackend.get_totp, BwBackend.make_response, BwBackend.backendKinds] <;>
    split_ifs <;> simp

/-- Shape of every `copy_to_clipboard` result. -/
theorem copy_to_clipboard_shape {J : Type} (sys : BwBackend.ClipSys) (base : Env)
    (text : String) :
    ((BwBackend.copy_to_clipboard (J := J) sys base text).ok = true ∧
      (BwBackend.copy_to_clipboard (J := J) sys base text).error = none) ∨
    ((BwBackend.copy_to_clipboard (J := J) sys base text).ok = false ∧
      (BwBackend.copy_to_clipboard (J := J) sys base text).error ∈
        BwBackend.backendKinds.map some) := by
  simp [BwBackend.copy_to_clipboard, BwBackend.make_response, BwBackend.backendKinds] <;>
    split_ifs <;> simp

/-- Shape of every `run_bw` result: errors come only from the runner's own
two kinds. -/
theorem run_bw_shape (fs : BwCli.Fs) (ctx : BwCli.ResolverCtx) (args : List String)
    (t : Nat) (envAdd : List (String × String)) (base : Env) (o : ProcOutcome) :
    ((BwCli.run_bw fs ctx args t envAdd base o).1.ok = true ∧
      (BwCli.run_bw fs ctx args t envAdd base o).1.error = none) ∨
    ((BwCli.run_bw fs ctx args t envAdd base o).1.ok = false ∧
      (BwCli.run_bw fs ctx args t envAdd base o).1.error ∈
        [some "BW_BINARY_MISSING", some "BW_COMMAND_FAILED"]) := by
  unfold BwCli.run_bw
  cases (BwCli.get_bw_path fs ctx).1 <;> cases o <;> simp <;> split_ifs <;> simp

/-- A result whose error obeys the backend shape never carries
`BW_BINARY_MISSING`. -/
theorem backend_error_ne_binary_missing {b : Bool} {e : Option String}
    (h : (b = true ∧ e = none) ∨ (b = false ∧ e ∈ BwBackend.backendKinds.map some)) :
    e ≠ some "BW_BINARY_MISSING" := by
  rcases h with ⟨_, rfl⟩ | ⟨_, he⟩
  · simp
  · intro hc
    rw [hc] at he
    exact absurd he (by decide)

end ResultShapes

/-- C5: On an unlock invocation that exits with code 0, the stripped stdout,
when non-empty, is stored as the session credential and returned in the
payload; empty stripped stdout still yields success with no token and an
unchanged store; and each session-scoped operation (status, lock, logout,
list items, get item, get totp) carries the stored token in its environment
overlay as `BW_SESSION`. -/
theorem unlock_stores_token_and_session_env {J : Type} (st : BwBackend.SessionSt)
    (r : CompletedProc) (base : Env) (k item_id : String) :
    (r.returncode = 0 → pyStrip r.stdout ≠ "" →
      BwBackend.unlock (J := J) st (.completed r) =
        (some (pyStrip r.stdout),
          ⟨true, some (.unlockedData (some (pyStrip r.stdout)) false), none⟩)) ∧
    (r.returncode = 0 → pyStrip r.stdout = "" →
      BwBackend.unlock (J := J) st (.completed r) =
        (st, ⟨true, some (.unlockedData none false), none⟩)) ∧
    (k ≠ "" →
      (BwBackend.status_invocation base (some k)).env "BW_SESSION" = some k ∧
      (BwBackend.lock_invocation base (some k)).env "BW_SESSION" = some k ∧
      (BwBackend.logout_invocation base (some k)).env "BW_SESSION" = some k ∧
      (BwBackend.list_items_invocation base (some k)).env "BW_SESSION" = some k ∧
      (BwBackend.get_item_invocation base (some k) item_id).env "BW_SESSION" = some k ∧
      (BwBackend.get_totp_invocation base (some k) item_id).env "BW_SESSION" = some k) := by
  refine ⟨fun h0 hne => ?_, fun h0 hemp => ?_, fun hk => ?_⟩
  · simp [BwBackend.unlock, h0, hne, BwBackend.make_response]
  · simp [BwBackend.unlock, h0, hemp, BwBackend.make_response]
  · have henv : BwBackend.bw_env base (some k) "BW_SESSION" = some k := by
      simp [BwBackend.bw_env, hk, Env.update]
    exact ⟨henv, henv, henv, henv, henv, henv⟩

/-- Witness for C5 at a concrete unlock output and session key. -/
theorem unlock_stores_token_and_session_env_witness :
    (BwBackend.unlock (J := String) none (.completed ⟨0, "  TOK ", ""⟩) =
      (some "TOK", ⟨true, some (.unlockedData (some "TOK") false), none⟩)) ∧
    (BwBackend.status_invocation emptyEnv (some "TOK")).env "BW_SESSION" = some "TOK" ∧
    (BwBackend.list_items_invocation emptyEnv (some "TOK")).env "BW_SESSION" = some "TOK" := by
  have h := unlock_stores_token_and_session_env (J := String) none
    ⟨0, "  TOK ", ""⟩ emptyEnv "TOK" "item-001"
  have hs : pyStrip "  TOK " = "TOK" := by decide
  refine ⟨?_, ?_, ?_⟩
  · have := h.1 (by decide) (by rw [hs]; decide)
    simpa [hs] using this
  · exact (h.2.2 (by decide)).1
  · exact (h.2.2 (by decide)).2.2.2.1

/-- C9: A login invocation whose completed outcome is classified as wrong
credentials (nonzero exit, combined lower-cased output containing "invalid"
or "incorrect") leaves the stored session credential unchanged and returns
`{ok: false, error: INVALID_CREDENTIALS}`; moreover login never mutates the
session slot on any outcome. -/
theorem login_invalid_credentials_frame {J : Type} (st : BwBackend.SessionSt)
    (r : CompletedProc) (o : ProcOutcome) (hrc : r.returncode ≠ 0)
    (hmatch : strContains (BwBackend.combined r) "invalid" = true ∨
      strContains (BwBackend.combined r) "incorrect" = true) :
    BwBackend.login (J := J) st (.completed r) =
      (st, ⟨false, none, some "INVALID_CREDENTIALS"⟩) ∧
    (BwBackend.login (J := J) st o).1 = st := by
  constructor
  · have hb : (strContains (BwBackend.combined r) "invalid" ||
        strContains (BwBackend.combined r) "incorrect") = true := by
      rcases hmatch with h | h <;> simp [h]
    simp [BwBackend.login, hrc, hb, BwBackend.make_response]
  · cases o with
    | completed r' =>
      simp only [BwBackend.login, BwBackend.make_response]
      split_ifs <;> rfl
    | timedOut => rfl
    | fileNotFound => rfl
    | raised msg => rfl

/-- Witness for C9 at a concrete wrong-credentials output. -/
theorem login_invalid_credentials_frame_witness :
    BwBackend.login (J := String) (some "k") (.completed ⟨1, "", "Invalid master password."⟩) =
      (some "k", ⟨false, none, some "INVALID_CREDENTIALS"⟩) ∧
    (BwBackend.login (J := String) (some "k") .timedOut).1 = some "k" :=
  login_invalid_credentials_frame (some "k") ⟨1, "", "Invalid master password."⟩
    .timedOut (by decide) (Or.inl (by decide))

/-- C10: For login and unlock, the password reaches the external client only
through the `BW_PASSWORD` environment variable: the argument vector does not
depend on the password (formalising "never appears as an element of the
command-line argument list" as data-flow independence), and, excluding the
degenerate aliasing cases where the password literally equals the email or
one of the fixed argument strings, the password is not a member of the
argument vector. -/
theorem password_via_environment_only (base : Env) (email password pw2 : String) :
    (BwBackend.login_invocation base email password).argv =
      (BwBackend.login_invocation base email pw2).argv ∧
    (BwBackend.login_invocation base email password).env "BW_PASSWORD" = some password ∧
    (BwBackend.unlock_invocation base password).argv =
      (BwBackend.unlock_invocation base pw2).argv ∧
    (BwBackend.unlock_invocation base password).env "BW_PASSWORD" = some password ∧
    (password ≠ email →
      password ∉ ["flatpak", "run", "--command=bw", BwBackend.FLATPAK_APP, "login",
        "--passwordenv", "BW_PASSWORD", "--raw"] →
      password ∉ (BwBackend.login_invocation base email password).argv) ∧
    (password ∉ ["flatpak", "run", "--command=bw", BwBackend.FLATPAK_APP, "unlock",
        "--passwordenv", "BW_PASSWORD", "--raw"] →
      password ∉ (BwBackend.unlock_invocation base password).argv) := by
  refine ⟨rfl, by simp [BwBackend.login_invocation, Env.update], rfl,
    by simp [BwBackend.unlock_invocation, Env.update], ?_, ?_⟩
  · intro hne hmem
    simp only [BwBackend.login_invocation, List.mem_cons, List.mem_singleton,
      List.not_mem_nil] at hmem ⊢
    tauto
  · intro hmem
    simp only [BwBackend.unlock_invocation, List.mem_cons, List.mem_singleton,
      List.not_mem_nil] at hmem ⊢
    tauto

/-- Witness for C10 at a concrete email and password. -/
theorem password_via_environment_only_witness :
    (BwBackend.login_invocation emptyEnv "user@example.com" "hunter2").env "BW_PASSWORD" =
      some "hunter2" ∧
    "hunter2" ∉ (BwBackend.login_invocation emptyEnv "user@example.com" "hunter2").argv ∧
    "hunter2" ∉ (BwBackend.unlock_invocation emptyEnv "hunter2").argv := by
  have h := password_via_environment_only emptyEnv "user@example.com" "hunter2" ""
  exact ⟨h.2.1, h.2.2.2.2.1 (by decide) (by decide), h.2.2.2.2.2 (by decide)⟩


/-- C1 counterexample: with a filesystem holding no bundled binary the
resolver yields no location, yet the backend's `lock` vault operation (which
drives the flatpak client directly, bypassing the resolver) returns plain
success rather than `BW_BINARY_MISSING`, and its result still depends on the
subprocess outcome — a process is launched. -/
theorem vault_ops_ignore_missing_binary :
    (BwCli.get_bw_path ⟨fun _ => false, fun _ => false⟩ ⟨some "/plugin", none⟩).1 = none ∧
    (BwBackend.lock (J := String) (some "k") (.completed ⟨0, "", ""⟩)).2 =
      ⟨true, some .lockedData, none⟩ ∧
    (BwBackend.lock (J := String) (some "k") (.completed ⟨0, "", ""⟩)).2.error ≠
      some "BW_BINARY_MISSING" ∧
    (BwBackend.lock (J := String) (some "k") (.completed ⟨0, "", ""⟩)).2 ≠
      (BwBackend.lock (J := String) (some "k") .timedOut).2 := by decide

/-- C1 amended: when the Binary Resolver yields no location, the low-level
runner `run_bw` short-circuits to `{ok: false, error: BW_BINARY_MISSING}`
regardless of arguments and launches no process; the vault operations of the
backend module, however, do not consult the resolver and never produce the
`BW_BINARY_MISSING` kind at all. -/
theorem run_bw_short_circuits_without_binary {J : Type} (fs : BwCli.Fs)
    (ctx : BwCli.ResolverCtx) (args : List String) (t : Nat)
    (envAdd : List (String × String)) (base : Env) (o o' : ProcOutcome)
    (parse : String → Option J) (st : BwBackend.SessionSt)
    (h : (BwCli.get_bw_path fs ctx).1 = none) :
    BwCli.run_bw fs ctx args t envAdd base o =
      (⟨false, some "BW_BINARY_MISSING", .message BwCli.bwMissingMessage⟩, none) ∧
    (BwBackend.status parse st o').2.error ≠ some "BW_BINARY_MISSING" ∧
    (BwBackend.login (J := J) st o').2.error ≠ some "BW_BINARY_MISSING" ∧
    (BwBackend.unlock (J := J) st o').2.error ≠ some "BW_BINARY_MISSING" ∧
    (BwBackend.lock (J := J) st o').2.error ≠ some "BW_BINARY_MISSING" ∧
    (BwBackend.logout (J := J) st o').2.error ≠ some "BW_BINARY_MISSING" ∧
    (BwBackend.list_items parse st o').2.error ≠ some "BW_BINARY_MISSING" ∧
    (BwBackend.get_item parse st o').2.error ≠ some "BW_BINARY_MISSING" ∧
    (BwBackend.get_totp (J := J) st o').2.error ≠ some "BW_BINARY_MISSING" := by
  refine ⟨?_, backend_error_ne_binary_missing (status_shape parse st o'),
    backend_error_ne_binary_missing (login_shape st o'),
    backend_error_ne_binary_missing (unlock_shape st o'),
    backend_error_ne_binary_missing (lock_shape st o'),
    backend_error_ne_binary_missing (logout_shape st o'),
    backend_error_ne_binary_missing (list_items_shape parse st o'),
    backend_error_ne_binary_missing (get_item_shape parse st o'),
    backend_error_ne_binary_missing (get_totp_shape st o')⟩
  unfold BwCli.run_bw
  rw [h]

/-- Witness for the C1 amended theorem at a concrete empty filesystem. -/
theorem run_bw_short_circuits_without_binary_witness :
    BwCli.run_bw ⟨fun _ => false, fun _ => false⟩ ⟨some "/plugin", none⟩
        ["status", "--raw"] 30 [] emptyEnv .timedOut =
      (⟨false, some "BW_BINARY_MISSING", .message BwCli.bwMissingMessage⟩, none) ∧
    (BwBackend.status (J := String) (fun s => some s) none .timedOut).2.error ≠
      some "BW_BINARY_MISSING" := by
  have h := run_bw_short_circuits_without_binary (J := String)
    ⟨fun _ => false, fun _ => false⟩ ⟨some "/plugin", none⟩ ["status", "--raw"] 30 []
    emptyEnv .timedOut .timedOut (fun s => some s) none (by decide)
  exact ⟨h.1, h.2.1⟩

/-- C2 counterexample: a failing login with output "no provider selected" is
classified `COMMAND_FAILED`, not `TWO_FACTOR_REQUIRED`, and one with output
"Two-step login code is invalid." is classified `INVALID_CREDENTIALS`
(the "invalid" substring matches first), not `INVALID_2FA_CODE`. -/
theorem login_two_factor_messages_misclassified :
    (BwBackend.login (J := String) none
        (.completed ⟨1, "", "no provider selected"⟩)).2.error = some "COMMAND_FAILED" ∧
    some "COMMAND_FAILED" ≠ some "TWO_FACTOR_REQUIRED" ∧
    (BwBackend.login (J := String) none
        (.completed ⟨1, "", "Two-step login code is invalid."⟩)).2.error =
      some "INVALID_CREDENTIALS" ∧
    some "INVALID_CREDENTIALS" ≠ some "INVALID_2FA_CODE" := by decide

/-- C2 amended: the backend's login classifier never produces
`TWO_FACTOR_REQUIRED` or `INVALID_2FA_CODE` (no provider list exists); a
failing login whose combined lower-cased output contains "invalid" — which
includes "two-step login code is invalid" — yields `INVALID_CREDENTIALS`,
and one matching none of "invalid"/"incorrect"/"already logged in" — which
includes a bare "no provider selected" — yields `COMMAND_FAILED`. -/
theorem login_two_factor_classification {J : Type} (st : BwBackend.SessionSt)
    (o : ProcOutcome) (r : CompletedProc) (hrc : r.returncode ≠ 0) :
    (BwBackend.login (J := J) st o).2.error ≠ some "TWO_FACTOR_REQUIRED" ∧
    (BwBackend.login (J := J) st o).2.error ≠ some "INVALID_2FA_CODE" ∧
    (strContains (BwBackend.combined r) "invalid" = true →
      (BwBackend.login (J := J) st (.completed r)).2 =
        ⟨false, none, some "INVALID_CREDENTIALS"⟩) ∧
    (strContains (BwBackend.combined r) "invalid" = false →
      strContains (BwBackend.combined r) "incorrect" = false →
      strContains (BwBackend.combined r) "already logged in" = false →
      (BwBackend.login (J := J) st (.completed r)).2 =
        ⟨false, none, some "COMMAND_FAILED"⟩) := by
  have hshape := login_shape (J := J) st o
  refine ⟨?_, ?_, fun hinv => ?_, fun h1 h2 h3 => ?_⟩
  · intro hc
    rcases hshape with ⟨_, he⟩ | ⟨_, he⟩ <;> rw [hc] at he
    · exact Option.noConfusion he
    · exact absurd he (by decide)
  · intro hc
    rcases hshape with ⟨_, he⟩ | ⟨_, he⟩ <;> rw [hc] at he
    · exact Option.noConfusion he
    · exact absurd he (by decide)
  · simp [BwBackend.login, hrc, hinv, BwBackend.make_response]
  · simp [BwBackend.login, hrc, h1, h2, h3, BwBackend.make_response]

/-- Witness for the C2 amended theorem at the two concrete messages. -/
theorem login_two_factor_classification_witness :
    (BwBackend.login (J := String) none
        (.completed ⟨1, "", "no provider selected"⟩)).2.error ≠
      some "TWO_FACTOR_REQUIRED" ∧
    (BwBackend.login (J := String) none
        (.completed ⟨1, "", "no provider selected"⟩)).2 =
      ⟨false, none, some "COMMAND_FAILED"⟩ ∧
    (BwBackend.login (J := String) none
        (.completed ⟨1, "", "Two-step login code is invalid."⟩)).2 =
      ⟨false, none, some "INVALID_CREDENTIALS"⟩ := by
  have ha := login_two_factor_classification (J := String) none
    (.completed ⟨1, "", "no provider selected"⟩) ⟨1, "", "no provider selected"⟩
    (by decide)
  have hb := login_two_factor_classification (J := String) none
    (.completed ⟨1, "", "Two-step login code is invalid."⟩)
    ⟨1, "", "Two-step login code is invalid."⟩ (by decide)
  exact ⟨ha.1, ha.2.2.2 (by decide) (by decide) (by decide), hb.2.2.1 (by decide)⟩

/-- C3 counterexample: an idempotent already-logged-out logout succeeds but
leaves the stored session credential in place, and a list call classified
`LOCKED` also leaves it in place — neither clears it as claimed. -/
theorem stale_session_survives_idempotent_logout :
    BwBackend.logout (J := String) (some "k")
        (.completed ⟨1, "", "You are not logged in."⟩) =
      (some "k", ⟨true, some (.loggedOut true), none⟩) ∧
    some "k" ≠ (none : Option String) ∧
    BwBackend.list_items (fun s => some s) (some "k")
        (.completed ⟨1, "", "Vault is locked."⟩) =
      (some "k", ⟨false, none, some "LOCKED"⟩) := by decide

/-- C3 amended: the stored session credential is cleared exactly by a lock
or logout whose subprocess exits 0; the idempotent already-logged-out logout
success and the operations that classify a result as `LOCKED` or
`NOT_AUTHENTICATED` (list items, get item, get totp) leave the stored
credential unchanged, as do status and login on every outcome. -/
theorem session_clearing_rules {J : Type} (parse : String → Option J)
    (st : BwBackend.SessionSt) (r : CompletedProc) (o : ProcOutcome) :
    (r.returncode = 0 → (BwBackend.lock (J := J) st (.completed r)).1 = none) ∧
    (r.returncode = 0 → (BwBackend.logout (J := J) st (.completed r)).1 = none) ∧
    (r.returncode ≠ 0 → (BwBackend.logout (J := J) st (.completed r)).1 = st) ∧
    (BwBackend.list_items parse st o).1 = st ∧
    (BwBackend.get_item parse st o).1 = st ∧
    (BwBackend.get_totp (J := J) st o).1 = st ∧
    (BwBackend.status parse st o).1 = st ∧
    (BwBackend.login (J := J) st o).1 = st := by
  refine ⟨fun h0 => ?_, fun h0 => ?_, fun hn => ?_, ?_, ?_, ?_, ?_, ?_⟩
  · simp [BwBackend.lock, h0]
  · simp [BwBackend.logout, h0]
  · simp only [BwBackend.logout, BwBackend.make_response]
    split_ifs <;> simp_all
  · cases o with
    | completed r' =>
      simp only [BwBackend.list_items, BwBackend.make_response]
      split_ifs <;> first | rfl | (cases parse r'.stdout <;> rfl)
    | timedOut => rfl
    | fileNotFound => rfl
    | raised msg => rfl
  · cases o with
    | completed r' =>
      simp only [BwBackend.get_item, BwBackend.make_response]
      split_ifs <;> first | rfl | (cases parse r'.stdout <;> rfl)
    | timedOut => rfl
    | fileNotFound => rfl
    | raised msg => rfl
  · cases o with
    | completed r' =>
      simp only [BwBackend.get_totp, BwBackend.make_response]
      split_ifs <;> rfl
    | timedOut => rfl
    | fileNotFound => rfl
    | raised msg => rfl
  · cases o with
    | completed r' =>
      simp only [BwBackend.status, BwBackend.make_response]
      split_ifs <;> first | rfl | (cases parse r'.stdout <;> rfl)
    | timedOut => rfl
    | fileNotFound => rfl
    | raised msg => rfl
  · cases o with
    | completed r' =>
      simp only [BwBackend.login, BwBackend.make_response]
      split_ifs <;> rfl
    | timedOut => rfl
    | fileNotFound => rfl
    | raised msg => rfl

/-- Witness for the C3 amended theorem at concrete outcomes. -/
theorem session_clearing_rules_witness :
    (BwBackend.lock (J := String) (some "k") (.completed ⟨0, "", ""⟩)).1 = none ∧
    (BwBackend.logout (J := String) (some "k")
      (.completed ⟨1, "", "You are not logged in."⟩)).1 = some "k" ∧
    (BwBackend.list_items (fun s => some s) (some "k")
      (.completed ⟨1, "", "Vault is locked."⟩)).1 = some "k" := by
  have h := session_clearing_rules (fun s => some (s : String)) (some "k")
    ⟨0, "", ""⟩ (.completed ⟨1, "", "Vault is locked."⟩)
  have h2 := session_clearing_rules (fun s => some (s : String)) (some "k")
    ⟨1, "", "You are not logged in."⟩ (.completed ⟨1, "", "Vault is locked."⟩)
  exact ⟨h.1 (by decide), h2.2.2.1 (by decide), h.2.2.2.1⟩

/-- C4 counterexample: a login exiting 0 whose stdout is the bare non-JSON
token "session-token-xyz" (it starts with neither a brace nor a bracket)
neither stores the token nor returns it — the session slot stays empty and
the payload is plain `{logged_in: True}`. -/
theorem login_token_not_stored :
    "session-token-xyz".data.head? ≠ some '\x7b' ∧
    "session-token-xyz".data.head? ≠ some '[' ∧
    BwBackend.login (J := String) none
        (.completed ⟨0, "session-token-xyz", ""⟩) =
      (none, ⟨true, some (.loggedIn false), none⟩) := by decide

/-- C4 amended: on a login invocation that exits with code 0 the success
payload always just signals logged in — stdout is never inspected, no token
is stored in the Session Store, and none is returned. -/
theorem login_success_ignores_stdout {J : Type} (st : BwBackend.SessionSt)
    (r : CompletedProc) (h : r.returncode = 0) :
    BwBackend.login (J := J) st (.completed r) =
      (st, ⟨true, some (.loggedIn false), none⟩) := by
  simp [BwBackend.login, h, BwBackend.make_response]

/-- Witness for the C4 amended theorem at a concrete token-like stdout. -/
theorem login_success_ignores_stdout_witness :
    BwBackend.login (J := String) none (.completed ⟨0, "session-token-xyz", ""⟩) =
      (none, ⟨true, some (.loggedIn false), none⟩) :=
  login_success_ignores_stdout none ⟨0, "session-token-xyz", ""⟩ (by decide)

/-- C6 counterexample: on timeout the low-level runner reports the kind
`BW_COMMAND_FAILED`, not the claimed `COMMAND_FAILED`, and a backend
operation such as unlock reports `COMMAND_FAILED` but with a `None` data
payload — no exit code -1 and no synthetic stderr appear in its result. -/
theorem timeout_error_kind_mismatch :
    (BwCli.run_bw ⟨fun _ => true, fun _ => true⟩ ⟨some "/plugin", none⟩
        ["status"] 30 [] emptyEnv .timedOut).1 =
      ⟨false, some "BW_COMMAND_FAILED", .output "" "Command timed out" (-1)⟩ ∧
    some "BW_COMMAND_FAILED" ≠ some "COMMAND_FAILED" ∧
    (BwBackend.unlock (J := String) (some "k") .timedOut).2 =
      ⟨false, none, some "COMMAND_FAILED"⟩ := by decide

/-- C6 amended: a timed-out invocation never escapes as a fault; when the
resolver yields a binary, `run_bw` maps a timeout to `{ok: false, error:
BW_COMMAND_FAILED}` whose data carries exit code -1 and the synthetic stderr
"Command timed out" (a process was launched); each backend operation maps a
timeout to `{ok: false, data: None, error: COMMAND_FAILED}` with the session
slot unchanged. -/
theorem timeout_classification {J : Type} (fs : BwCli.Fs) (ctx : BwCli.ResolverCtx)
    (p : String) (args : List String) (t : Nat) (envAdd : List (String × String))
    (base : Env) (parse : String → Option J) (st : BwBackend.SessionSt)
    (h : (BwCli.get_bw_path fs ctx).1 = some p) :
    (BwCli.run_bw fs ctx args t envAdd base .timedOut).1 =
      ⟨false, some "BW_COMMAND_FAILED", .output "" "Command timed out" (-1)⟩ ∧
    (BwCli.run_bw fs ctx args t envAdd base .timedOut).2.isSome = true ∧
    BwBackend.status parse st .timedOut = (st, ⟨false, none, some "COMMAND_FAILED"⟩) ∧
    BwBackend.login (J := J) st .timedOut = (st, ⟨false, none, some "COMMAND_FAILED"⟩) ∧
    BwBackend.unlock (J := J) st .timedOut = (st, ⟨false, none, some "COMMAND_FAILED"⟩) ∧
    BwBackend.lock (J := J) st .timedOut = (st, ⟨false, none, some "COMMAND_FAILED"⟩) ∧
    BwBackend.logout (J := J) st .timedOut = (st, ⟨false, none, some "COMMAND_FAILED"⟩) ∧
    BwBackend.list_items parse st .timedOut = (st, ⟨false, none, some "COMMAND_FAILED"⟩) ∧
    BwBackend.get_item parse st .timedOut = (st, ⟨false, none, some "COMMAND_FAILED"⟩) ∧
    BwBackend.get_totp (J := J) st .timedOut = (st, ⟨false, none, some "COMMAND_FAILED"⟩) ∧
    BwBackend.check_flatpak (J := J) .timedOut = ⟨false, none, some "COMMAND_FAILED"⟩ ∧
    BwBackend.check_bitwarden (J := J) .timedOut = ⟨false, none, some "COMMAND_FAILED"⟩ := by
  refine ⟨?_, ?_, rfl, rfl, rfl, rfl, rfl, rfl, rfl, rfl, rfl, rfl⟩
  · unfold BwCli.run_bw
    rw [h]
  · unfold BwCli.run_bw
    rw [h]
    rfl

/-- Witness for the C6 amended theorem at a concrete resolved binary. -/
theorem timeout_classification_witness :
    (BwCli.run_bw ⟨fun _ => true, fun _ => true⟩ ⟨some "/plugin", none⟩
        ["status"] 30 [] emptyEnv .timedOut).1 =
      ⟨false, some "BW_COMMAND_FAILED", .output "" "Command timed out" (-1)⟩ ∧
    BwBackend.unlock (J := String) (some "k") .timedOut =
      (some "k", ⟨false, none, some "COMMAND_FAILED"⟩) := by
  have h := timeout_classification (J := String) ⟨fun _ => true, fun _ => true⟩
    ⟨some "/plugin", none⟩ "/plugin/backend/bin/bw" ["status"] 30 [] emptyEnv
    (fun s => some s) (some "k") (by decide)
  exact ⟨h.1, h.2.2.2.2.1⟩

/-- C7 counterexample: a failed flatpak availability check yields
`FLATPAK_MISSING` and a generic exception during login yields
`UNKNOWN_ERROR`; neither string is among the specification's eight taxonomy
kinds. -/
theorem error_kinds_outside_spec_taxonomy :
    (BwBackend.check_flatpak (J := String) (.completed ⟨1, "", ""⟩)).ok = false ∧
    (BwBackend.check_flatpak (J := String) (.completed ⟨1, "", ""⟩)).error =
      some "FLATPAK_MISSING" ∧
    "FLATPAK_MISSING" ∉ BwBackend.specKinds ∧
    (BwBackend.login (J := String) none (.raised "boom")).2.error =
      some "UNKNOWN_ERROR" ∧
    "UNKNOWN_ERROR" ∉ BwBackend.specKinds := by decide

/-- C7 amended: for every public operation and every subprocess outcome, a
result with `ok = false` carries an error drawn from the strings the module
actually emits — `FLATPAK_MISSING`, `BITWARDEN_MISSING`, `COMMAND_FAILED`,
`UNKNOWN_ERROR`, `INVALID_CREDENTIALS`, `NOT_AUTHENTICATED`, `LOCKED`,
`CLIPBOARD_ERROR` — while the low-level runner emits only
`BW_BINARY_MISSING` or `BW_COMMAND_FAILED`. -/
theorem failure_errors_in_actual_taxonomy {J : Type} (parse : String → Option J)
    (st : BwBackend.SessionSt) (o : ProcOutcome) (sys : BwBackend.ClipSys)
    (base : Env) (text : String) (fs : BwCli.Fs) (ctx : BwCli.ResolverCtx)
    (args : List String) (t : Nat) (envAdd : List (String × String)) :
    ((BwBackend.check_flatpak (J := J) o).ok = false →
      (BwBackend.check_flatpak (J := J) o).error ∈ BwBackend.backendKinds.map some) ∧
    ((BwBackend.check_bitwarden (J := J) o).ok = false →
      (BwBackend.check_bitwarden (J := J) o).error ∈ BwBackend.backendKinds.map some) ∧
    ((BwBackend.status parse st o).2.ok = false →
      (BwBackend.status parse st o).2.error ∈ BwBackend.backendKinds.map some) ∧
    ((BwBackend.login (J := J) st o).2.ok = false →
      (BwBackend.login (J := J) st o).2.error ∈ BwBackend.backendKinds.map some) ∧
    ((BwBackend.unlock (J := J) st o).2.ok = false →
      (BwBackend.unlock (J := J) st o).2.error ∈ BwBackend.backendKinds.map some) ∧
    ((BwBackend.lock (J := J) st o).2.ok = false →
      (BwBackend.lock (J := J) st o).2.error ∈ BwBackend.backendKinds.map some) ∧
    ((BwBackend.logout (J := J) st o).2.ok = false →
      (BwBackend.logout (J := J) st o).2.error ∈ BwBackend.backendKinds.map some) ∧
    ((BwBackend.list_items parse st o).2.ok = false →
      (BwBackend.list_items parse st o).2.error ∈ BwBackend.backendKinds.map some) ∧
    ((BwBackend.get_item parse st o).2.ok = false →
      (BwBackend.get_item parse st o).2.error ∈ BwBackend.backendKinds.map some) ∧
    ((BwBackend.get_totp (J := J) st o).2.ok = false →
      (BwBackend.get_totp (J := J) st o).2.error ∈ BwBackend.backendKinds.map some) ∧
    ((BwBackend.copy_to_clipboard (J := J) sys base text).ok = false →
      (BwBackend.copy_to_clipboard (J := J) sys base text).error ∈
        BwBackend.backendKinds.map some) ∧
    ((BwCli.run_bw fs ctx args t envAdd base o).1.ok = false →
      (BwCli.run_bw fs ctx args t envAdd base o).1.error ∈
        [some "BW_BINARY_MISSING", some "BW_COMMAND_FAILED"]) := by
  have pick : ∀ {b : Bool} {e : Option String} {l : List (Option String)},
      (b = true ∧ e = none) ∨ (b = false ∧ e ∈ l) → b = false → e ∈ l := by
    rintro b e l (⟨rfl, _⟩ | ⟨_, he⟩) hb
    · exact absurd hb (by simp)
    · exact he
  exact ⟨pick (check_flatpak_shape o), pick (check_bitwarden_shape o),
    pick (status_shape parse st o), pick (login_shape st o),
    pick (unlock_shape st o), pick (lock_shape st o), pick (logout_shape st o),
    pick (list_items_shape parse st o), pick (get_item_shape parse st o),
    pick (get_totp_shape st o), pick (copy_to_clipboard_shape sys base text),
    pick (run_bw_shape fs ctx args t envAdd base o)⟩

/-- Witness for the C7 amended theorem at concrete failing outcomes. -/
theorem failure_errors_in_actual_taxonomy_witness :
    (BwBackend.login (J := String) none (.completed ⟨1, "", "Invalid"⟩)).2.error ∈
      BwBackend.backendKinds.map some ∧
    (BwCli.run_bw ⟨fun _ => false, fun _ => false⟩ ⟨none, none⟩ [] 30 [] emptyEnv
        .timedOut).1.error ∈ [some "BW_BINARY_MISSING", some "BW_COMMAND_FAILED"] := by
  have h := failure_errors_in_actual_taxonomy (J := String) (fun s => some s) none
    (.completed ⟨1, "", "Invalid"⟩)
    ⟨fun _ => none, fun _ => .timedOut⟩ emptyEnv "text"
    ⟨fun _ => false, fun _ => false⟩ ⟨none, none⟩ [] 30 []
  exact ⟨h.2.2.2.1 (by decide), h.2.2.2.2.2.2.2.2.2.2.2 (by decide)⟩

/-- C8 counterexample: the wl-copy attempt passes the text as a command-line
argument with no standard-input feed (the claim says every tool is fed on
standard input); xclip and xsel do receive it on standard input. -/
theorem wl_copy_text_passed_as_argument :
    (BwBackend.wl_copy_invocation emptyEnv "secret-pw").stdinData = none ∧
    "secret-pw" ∈ (BwBackend.wl_copy_invocation emptyEnv "secret-pw").argv ∧
    (BwBackend.xclip_invocation emptyEnv "secret-pw").stdinData = some "secret-pw" ∧
    (BwBackend.xsel_invocation emptyEnv "secret-pw").stdinData = some "secret-pw" := by
  refine ⟨rfl, ?_, rfl, rfl⟩
  simp [BwBackend.wl_copy_invocation]

/-- C8 amended: the clipboard chain tries wl-copy, xclip, xsel in that fixed
order, skipping a tool exactly when it is not installed; each invocation has
a 5-second timeout; wl-copy receives the text as a command-line argument
while xclip and xsel receive it on standard input; the first tool exiting
zero names the method in the success payload; if all three are absent or
fail the result is `{ok: false, error: CLIPBOARD_ERROR}`. -/
theorem clipboard_fallback_order {J : Type} (sys : BwBackend.ClipSys) (base : Env)
    (text : String) :
    (sys.which "wl-copy" = none → BwBackend.try_wl_copy sys base text = false) ∧
    (sys.which "xclip" = none → BwBackend.try_xclip sys base text = false) ∧
    (sys.which "xsel" = none → BwBackend.try_xsel sys base text = false) ∧
    (BwBackend.try_wl_copy sys base text = true →
      BwBackend.copy_to_clipboard (J := J) sys base text =
        ⟨true, some (.copied "wl-copy"), none⟩) ∧
    (BwBackend.try_wl_copy sys base text = false →
      BwBackend.try_xclip sys base text = true →
      BwBackend.copy_to_clipboard (J := J) sys base text =
        ⟨true, some (.copied "xclip"), none⟩) ∧
    (BwBackend.try_wl_copy sys base text = false →
      BwBackend.try_xclip sys base text = false →
      BwBackend.try_xsel sys base text = true →
      BwBackend.copy_to_clipboard (J := J) sys base text =
        ⟨true, some (.copied "xsel"), none⟩) ∧
    (BwBackend.try_wl_copy sys base text = false →
      BwBackend.try_xclip sys base text = false →
      BwBackend.try_xsel sys base text = false →
      BwBackend.copy_to_clipboard (J := J) sys base text =
        ⟨false, none, some "CLIPBOARD_ERROR"⟩) ∧
    (BwBackend.wl_copy_invocation base text).timeoutSec = 5 ∧
    (BwBackend.xclip_invocation base text).timeoutSec = 5 ∧
    (BwBackend.xsel_invocation base text).timeoutSec = 5 ∧
    (BwBackend.wl_copy_invocation base text).argv = ["wl-copy", text] ∧
    (BwBackend.wl_copy_invocation base text).stdinData = none ∧
    (BwBackend.xclip_invocation base text).stdinData = some text ∧
    (BwBackend.xsel_invocation base text).stdinData = some text := by
  refine ⟨fun h => ?_, fun h => ?_, fun h => ?_, fun h1 => ?_, fun h1 h2 => ?_,
    fun h1 h2 h3 => ?_, fun h1 h2 h3 => ?_, rfl, rfl, rfl, rfl, rfl, rfl, rfl⟩
  · simp [BwBackend.try_wl_copy, BwBackend.try_tool, h]
  · simp [BwBackend.try_xclip, BwBackend.try_tool, h]
  · simp [BwBackend.try_xsel, BwBackend.try_tool, h]
  · simp [BwBackend.copy_to_clipboard, h1, BwBackend.make_response]
  · simp [BwBackend.copy_to_clipboard, h1, h2, BwBackend.make_response]
  · simp [BwBackend.copy_to_clipboard, h1, h2, h3, BwBackend.make_response]
  · simp [BwBackend.copy_to_clipboard, h1, h2, h3, BwBackend.make_response]

/-- Witness for the C8 amended theorem: with only xclip installed and
succeeding, the copy reports method "xclip". -/
theorem clipboard_fallback_order_witness :
    BwBackend.copy_to_clipboard (J := String)
        ⟨fun n => if n = "xclip" then some "/usr/bin/xclip" else none,
          fun _ => .completed ⟨0, "", ""⟩⟩ emptyEnv "pw" =
      ⟨true, some (.copied "xclip"), none⟩ ∧
    (BwBackend.xclip_invocation emptyEnv "pw").timeoutSec = 5 := by
  have h := clipboard_fallback_order (J := String)
    ⟨fun n => if n = "xclip" then some "/usr/bin/xclip" else none,
      fun _ => .completed ⟨0, "", ""⟩⟩ emptyEnv "pw"
  exact ⟨h.2.2.2.2.1 (by decide) (by decide), h.2.2.2.2.2.2.2.2.1⟩
